import Mathlib

/-!
Verification of the jload repository's loader/saver pair against its
specification. The repository ships only `setup.py` and `test_jload.py`;
the `jload` package itself (functions `jload`, `jsave`, `jsave_append`)
is not present, so the definitions below are modelled from the spec
(sections 3, 4.1, 4.2, 4.3 and 6) and checked against the behaviours the
test suite pins down.

Files are modelled at the level the spec's algorithms consume: a file's
content is characterised by whether it is empty/whitespace-only, by the
outcome of parsing the entire content as one JSON document, and by the
per-line parse outcomes used by the JSONL fallback.
-/

/-- A JSON value: null, boolean, number, string, ordered sequence (array)
or mapping (object with string keys). Numbers are modelled as integers;
no claim depends on the numeric payload. -/
inductive JValue where
  | jnull : JValue
  | jbool : Bool → JValue
  | jnum : Int → JValue
  | jstr : String → JValue
  | jarr : List JValue → JValue
  | jobj : List (String × JValue) → JValue

/-- Whether a JSON value is a mapping (a JSON object). -/
def JValue.isObj : JValue → Bool
  | .jobj _ => true
  | _ => false

/-- Whether a JSON value is a scalar: a string, number, boolean or null
(neither a mapping nor a sequence). -/
def JValue.isScalar : JValue → Bool
  | .jobj _ => false
  | .jarr _ => false
  | _ => true

/-- The parse outcome of one physical line of a file: blank
(empty or whitespace-only), a line that parses as the JSON value `v`,
or a line that fails to parse as JSON. -/
inductive ParsedLine where
  | blank : ParsedLine
  | val : JValue → ParsedLine
  | bad : ParsedLine

/-- Whether a line is blank (whitespace-only). -/
def ParsedLine.isBlank : ParsedLine → Bool
  | .blank => true
  | _ => false

/-- Abstract content of an existing file, characterised by the three
observations the spec's loader makes of it: `isBlank` — the content is
empty or whitespace-only; `whole` — the result of parsing the entire
content as one JSON document (`none` when that parse fails); `lines` —
the per-line parse outcomes, in file order, consumed by the JSONL
fallback. -/
structure Content where
  isBlank : Bool
  whole : Option JValue
  lines : List ParsedLine

/-- Content of an empty file: blank, whole-document parse fails,
no lines. -/
def Content.emptyFile : Content := ⟨true, none, []⟩

/-- Content written by serialising the single JSON value `v` as one
pretty-printed JSON document. A correct serialiser's output parses back
to `v`, so the whole-document parse succeeds with `v`. The per-line view
of a pretty-printed document is never consulted by the loader (the
whole-document parse succeeds first), so it is modelled as a single
unparseable line. -/
def Content.ofJsonDoc (v : JValue) : Content :=
  ⟨false, some v, [ParsedLine.bad]⟩

/-- Content written by serialising each value of `vs` as its own JSON
line (JSONL). Zero values give an empty file; exactly one line is also a
valid whole JSON document and parses whole to that value; two or more
lines do not parse as one document (trailing data), so the
whole-document parse fails. -/
def Content.ofJsonlLines (vs : List JValue) : Content :=
  ⟨vs.isEmpty,
   match vs with
   | [v] => some v
   | _ => none,
   vs.map ParsedLine.val⟩

/-- Content after opening a file holding `c` in append mode and writing
one new JSON line for `v`. The result is never blank. If the prior
content was only whitespace, the new text parses whole as just `v`;
otherwise the prior text either was a complete JSON value (so the new
line is trailing data) or was incomplete (so the whole parse still
fails), and in both cases the whole-document parse of the result
fails. -/
def Content.appendLine (c : Content) (v : JValue) : Content :=
  ⟨false,
   if c.lines.all ParsedLine.isBlank then some v else none,
   c.lines ++ [ParsedLine.val v]⟩

/-- The error taxonomy the claims need: a missing load target
(FileNotFoundError) and a shape/parse failure (ValueError). -/
inductive JErr where
  | fileNotFound : JErr
  | valueError : JErr

/-- The mappings produced by the JSONL fallback phase: blank lines are
skipped, lines that fail to parse are skipped, lines that parse to a
non-mapping are skipped, and the remaining mappings are kept in file
order. -/
def lineMappings (ls : List ParsedLine) : List JValue :=
  ls.filterMap fun l =>
    match l with
    | .val v => if v.isObj then some v else none
    | _ => none

/-- Modelled from the spec: the loader algorithm of section 4.1 applied
to the content of an existing file (the missing `jload` body, after its
existence check). Empty or whitespace-only content yields an empty
sequence. Otherwise, if the whole-document parse succeeded: a mapping is
wrapped into a one-element sequence; a sequence is returned unchanged
when every element is a mapping and is a ValueError otherwise; a scalar
is a ValueError. If the whole-document parse failed, the JSONL fallback
returns the per-line mappings, a ValueError when there are none. -/
def jloadContent (c : Content) : Except JErr (List JValue) :=
  if c.isBlank then .ok []
  else
    match c.whole with
    | some (.jobj fields) => .ok [JValue.jobj fields]
    | some (.jarr xs) =>
        if xs.all JValue.isObj then .ok xs else .error .valueError
    | some _ => .error .valueError
    | none =>
        let ms := lineMappings c.lines
        if ms.isEmpty then .error .valueError else .ok ms

/-- Modelled from the spec: the missing function `jload(path)` of
sections 4.1 and 6, with the file system abstracted to the content found
at the path (`none` when the file does not exist). A missing file is a
FileNotFoundError; otherwise the loader algorithm runs on the
content. -/
def jload (file : Option Content) : Except JErr (List JValue) :=
  match file with
  | none => .error .fileNotFound
  | some c => jloadContent c

/-- The two on-disk formats of the saver. -/
inductive Fmt where
  | json : Fmt
  | jsonl : Fmt

/-- Format resolution of section 4.2: an explicit format wins; otherwise
the format is inferred from the path extension, `.jsonl` meaning jsonl
and anything else json. -/
def resolveFormat (fmt : Option Fmt) (path : String) : Fmt :=
  match fmt with
  | some f => f
  | none => if path.endsWith ".jsonl" then Fmt.jsonl else Fmt.json

/-- Modelled from the spec: the missing function
`jsave(data, path, format, indent, append)` of sections 4.2 and 6, with
the file system abstracted to the prior content at the path (`none`
when the file does not exist) and the result being the content left at
the path on success. The `indent` argument only changes concrete
whitespace of a pretty-printed document, which the abstract content does
not observe. Non-append json writes the data as one document as-is;
non-append jsonl writes one line for a single mapping, one line per
element for a sequence of mappings, and is a ValueError otherwise.
Append requires the new item to be a mapping (ValueError otherwise);
jsonl append writes one new line after the existing content (an absent
file counts as empty); json append on an absent file saves a one-element
sequence, on an existing sequence rewrites it with the item appended at
the end, and on any other existing content (a mapping, a scalar, or
unparseable text) is a ValueError. -/
def jsave (data : JValue) (path : String) (fmt : Option Fmt)
    (indent : Nat) (append : Bool) (file : Option Content) :
    Except JErr Content :=
  let _ := indent
  let f := resolveFormat fmt path
  if append then
    match data with
    | .jobj fields =>
        match f with
        | .jsonl =>
            .ok (Content.appendLine (file.getD Content.emptyFile)
              (JValue.jobj fields))
        | .json =>
            match file with
            | none =>
                .ok (Content.ofJsonDoc (JValue.jarr [JValue.jobj fields]))
            | some c =>
                match c.whole with
                | some (.jarr xs) =>
                    .ok (Content.ofJsonDoc
                      (JValue.jarr (xs ++ [JValue.jobj fields])))
                | _ => .error .valueError
    | _ => .error .valueError
  else
    match f with
    | .json => .ok (Content.ofJsonDoc data)
    | .jsonl =>
        match data with
        | .jobj fields => .ok (Content.ofJsonlLines [JValue.jobj fields])
        | .jarr xs =>
            if xs.all JValue.isObj then .ok (Content.ofJsonlLines xs)
            else .error .valueError
        | _ => .error .valueError

/-- Modelled from the spec: the missing function
`jsave_append(item, path, format, indent)` of sections 4.3 and 6 —
sugar for calling the saver with the same arguments and append set to
true. -/
def jsave_append (item : JValue) (path : String) (fmt : Option Fmt)
    (indent : Nat) (file : Option Content) : Except JErr Content :=
  jsave item path fmt indent true file

theorem lineMappings_map_val (l : List JValue)
    (h : l.all JValue.isObj = true) :
    lineMappings (l.map ParsedLine.val) = l := by
  induction l with
  | nil => rfl
  | cons v t ih =>
      simp only [List.all_cons, Bool.and_eq_true] at h
      simp [lineMappings, List.filterMap_cons, h.1]
      simpa [lineMappings] using ih h.2

/-- Claim C1: for every ordered sequence of mappings, saving it with the
saver in json format and then loading the result returns a sequence equal
to the original, element-for-element, in the original order. -/
theorem json_roundtrip (ms : List JValue) (path : String) (indent : Nat)
    (h : ms.all JValue.isObj = true) :
    ∃ c, jsave (JValue.jarr ms) path (some Fmt.json) indent false none =
        Except.ok c ∧ jload (some c) = Except.ok ms := by
  refine ⟨Content.ofJsonDoc (JValue.jarr ms), rfl, ?_⟩
  simp [jload, jloadContent, Content.ofJsonDoc, h]

theorem json_roundtrip_witness :
    ([JValue.jobj [("name", JValue.jstr "Alice")],
      JValue.jobj [("name", JValue.jstr "Bob")]].all JValue.isObj = true) ∧
    ∃ c, jsave (JValue.jarr [JValue.jobj [("name", JValue.jstr "Alice")],
        JValue.jobj [("name", JValue.jstr "Bob")]]) "array.json"
        (some Fmt.json) 2 false none = Except.ok c ∧
      jload (some c) = Except.ok
        [JValue.jobj [("name", JValue.jstr "Alice")],
         JValue.jobj [("name", JValue.jstr "Bob")]] :=
  ⟨rfl, json_roundtrip _ "array.json" 2 rfl⟩

/-- Claim C2: for every ordered sequence of mappings, saving it with the
saver in jsonl format and then loading the result returns the same
sequence, in the same order. -/
theorem jsonl_roundtrip (ms : List JValue) (path : String) (indent : Nat)
    (h : ms.all JValue.isObj = true) :
    ∃ c, jsave (JValue.jarr ms) path (some Fmt.jsonl) indent false none =
        Except.ok c ∧ jload (some c) = Except.ok ms := by
  refine ⟨Content.ofJsonlLines ms, by simp [jsave, resolveFormat, h], ?_⟩
  match ms, h with
  | [], _ => rfl
  | [m], h =>
      have hm : m.isObj = true := by simpa using h
      cases m with
      | jobj fields => rfl
      | jnull => simp [JValue.isObj] at hm
      | jbool b => simp [JValue.isObj] at hm
      | jnum n => simp [JValue.isObj] at hm
      | jstr s => simp [JValue.isObj] at hm
      | jarr xs => simp [JValue.isObj] at hm
  | m1 :: m2 :: t, h =>
      have hl := lineMappings_map_val (m1 :: m2 :: t) h
      simp only [List.map_cons] at hl
      simp [jload, jloadContent, Content.ofJsonlLines, hl]

theorem jsonl_roundtrip_witness :
    ([JValue.jobj [("name", JValue.jstr "Alice")],
      JValue.jobj [("name", JValue.jstr "Bob")]].all JValue.isObj = true) ∧
    ∃ c, jsave (JValue.jarr [JValue.jobj [("name", JValue.jstr "Alice")],
        JValue.jobj [("name", JValue.jstr "Bob")]]) "data.jsonl"
        (some Fmt.jsonl) 2 false none = Except.ok c ∧
      jload (some c) = Except.ok
        [JValue.jobj [("name", JValue.jstr "Alice")],
         JValue.jobj [("name", JValue.jstr "Bob")]] :=
  ⟨rfl, jsonl_roundtrip _ "data.jsonl" 2 rfl⟩

/-- Claim C3: for every file whose content is not parseable as one whole
JSON document, the loader falls back to per-line JSONL parsing and
returns exactly the mappings from the lines that parse as JSON mappings,
in file order; lines that fail to parse are skipped without raising an
error, provided at least one line yields a mapping. -/
theorem jsonl_fallback_skips_bad_lines (c : Content)
    (hb : c.isBlank = false) (hw : c.whole = none)
    (hm : lineMappings c.lines ≠ []) :
    jload (some c) = Except.ok (lineMappings c.lines) := by
  have h1 : (lineMappings c.lines).isEmpty = false := by
    cases h : lineMappings c.lines with
    | nil => exact absurd h hm
    | cons a t => rfl
  simp [jload, jloadContent, hb, hw, h1]

theorem jsonl_fallback_skips_bad_lines_witness :
    ((false : Bool) = false ∧ (none : Option JValue) = none ∧
      lineMappings [ParsedLine.val (JValue.jobj [("name", JValue.jstr "Alice")]),
        ParsedLine.bad,
        ParsedLine.val (JValue.jobj [("name", JValue.jstr "Bob")])] ≠ []) ∧
    jload (some ⟨false, none,
        [ParsedLine.val (JValue.jobj [("name", JValue.jstr "Alice")]),
         ParsedLine.bad,
         ParsedLine.val (JValue.jobj [("name", JValue.jstr "Bob")])]⟩) =
      Except.ok [JValue.jobj [("name", JValue.jstr "Alice")],
        JValue.jobj [("name", JValue.jstr "Bob")]] :=
  ⟨⟨rfl, rfl, by simp [lineMappings, JValue.isObj]⟩,
   jsonl_fallback_skips_bad_lines _ rfl rfl
     (by simp [lineMappings, JValue.isObj])⟩

/-- Claim C4: for every file whose entire content parses as a single JSON
value that is a scalar, or as a JSON sequence containing at least one
non-mapping element, the loader fails with a ValueError; it never
silently coerces non-mapping top-level values into the returned
collection. -/
theorem load_rejects_non_mapping_top_level (c : Content) (v : JValue)
    (hb : c.isBlank = false) (hw : c.whole = some v)
    (h : v.isScalar = true ∨
      ∃ xs, v = JValue.jarr xs ∧ xs.all JValue.isObj = false) :
    jload (some c) = Except.error JErr.valueError := by
  rcases h with hs | ⟨xs, rfl, hxs⟩
  · cases v with
    | jnull => simp [jload, jloadContent, hb, hw]
    | jbool b => simp [jload, jloadContent, hb, hw]
    | jnum n => simp [jload, jloadContent, hb, hw]
    | jstr s => simp [jload, jloadContent, hb, hw]
    | jarr xs => simp [JValue.isScalar] at hs
    | jobj fields => simp [JValue.isScalar] at hs
  · simp [jload, jloadContent, hb, hw, hxs]

theorem load_rejects_non_mapping_top_level_witness :
    ((false : Bool) = false ∧
      (some (JValue.jstr "hello") : Option JValue) = some (JValue.jstr "hello") ∧
      (JValue.jstr "hello").isScalar = true) ∧
    jload (some ⟨false, some (JValue.jstr "hello"),
        [ParsedLine.val (JValue.jstr "hello")]⟩) =
      Except.error JErr.valueError :=
  ⟨⟨rfl, rfl, rfl⟩,
   load_rejects_non_mapping_top_level _ _ rfl rfl (Or.inl rfl)⟩

/-- Claim C5: for every mapping item appended with the saver in json
format: if the target file does not exist the resulting file contains a
one-element JSON array holding the item; if the target file holds a JSON
array the resulting file holds that array with the item appended at the
end, all prior elements unchanged and in their prior order. -/
theorem json_append_grows_array (item : List (String × JValue))
    (path : String) (indent : Nat) (c : Content) (xs : List JValue)
    (hw : c.whole = some (JValue.jarr xs)) :
    jsave (JValue.jobj item) path (some Fmt.json) indent true none =
      Except.ok (Content.ofJsonDoc (JValue.jarr [JValue.jobj item])) ∧
    jsave (JValue.jobj item) path (some Fmt.json) indent true (some c) =
      Except.ok (Content.ofJsonDoc
        (JValue.jarr (xs ++ [JValue.jobj item]))) := by
  constructor
  · rfl
  · simp [jsave, resolveFormat, hw]

theorem json_append_grows_array_witness :
    ((Content.ofJsonDoc (JValue.jarr [JValue.jobj
        [("name", JValue.jstr "Alice")]])).whole =
      some (JValue.jarr [JValue.jobj [("name", JValue.jstr "Alice")]])) ∧
    (jsave (JValue.jobj [("name", JValue.jstr "Bob")]) "people.json"
        (some Fmt.json) 2 true none =
      Except.ok (Content.ofJsonDoc
        (JValue.jarr [JValue.jobj [("name", JValue.jstr "Bob")]])) ∧
    jsave (JValue.jobj [("name", JValue.jstr "Bob")]) "people.json"
        (some Fmt.json) 2 true
        (some (Content.ofJsonDoc (JValue.jarr
          [JValue.jobj [("name", JValue.jstr "Alice")]]))) =
      Except.ok (Content.ofJsonDoc
        (JValue.jarr [JValue.jobj [("name", JValue.jstr "Alice")],
          JValue.jobj [("name", JValue.jstr "Bob")]]))) := by
  refine ⟨rfl, ?_⟩
  have h := json_append_grows_array [("name", JValue.jstr "Bob")]
    "people.json" 2
    (Content.ofJsonDoc (JValue.jarr [JValue.jobj [("name", JValue.jstr "Alice")]]))
    [JValue.jobj [("name", JValue.jstr "Alice")]] rfl
  exact ⟨h.1, h.2⟩

/-- Claim C6: for every existing json-format file whose top-level parsed
value is a single mapping (not an array), appending any mapping with the
saver in append mode fails with a ValueError. -/
theorem json_append_to_object_fails (item fields : List (String × JValue))
    (path : String) (indent : Nat) (c : Content)
    (hw : c.whole = some (JValue.jobj fields)) :
    jsave (JValue.jobj item) path (some Fmt.json) indent true (some c) =
      Except.error JErr.valueError := by
  simp [jsave, resolveFormat, hw]

theorem json_append_to_object_fails_witness :
    ((Content.ofJsonDoc (JValue.jobj [("name", JValue.jstr "Alice")])).whole =
      some (JValue.jobj [("name", JValue.jstr "Alice")])) ∧
    jsave (JValue.jobj [("name", JValue.jstr "Bob")]) "person.json"
        (some Fmt.json) 2 true
        (some (Content.ofJsonDoc
          (JValue.jobj [("name", JValue.jstr "Alice")]))) =
      Except.error JErr.valueError :=
  ⟨rfl, json_append_to_object_fails _ _ "person.json" 2 _ rfl⟩

/-- Claim C7: for every existing file whose content is empty or consists
only of whitespace, the loader returns an empty sequence and does not
raise an error. -/
theorem load_blank_returns_empty (c : Content) (hb : c.isBlank = true) :
    jload (some c) = Except.ok [] := by
  simp [jload, jloadContent, hb]

theorem load_blank_returns_empty_witness :
    (Content.emptyFile.isBlank = true) ∧
    jload (some Content.emptyFile) = Except.ok [] :=
  ⟨rfl, load_blank_returns_empty _ rfl⟩

/-- Claim C8: for every non-empty file whose content is not parseable as
a whole JSON document and whose per-line JSONL fallback yields zero
successfully parsed mappings, the loader fails with a ValueError. -/
theorem load_no_valid_lines_fails (c : Content) (hb : c.isBlank = false)
    (hw : c.whole = none) (hm : lineMappings c.lines = []) :
    jload (some c) = Except.error JErr.valueError := by
  simp [jload, jloadContent, hb, hw, hm]

theorem load_no_valid_lines_fails_witness :
    ((false : Bool) = false ∧ (none : Option JValue) = none ∧
      lineMappings [ParsedLine.bad] = []) ∧
    jload (some ⟨false, none, [ParsedLine.bad]⟩) =
      Except.error JErr.valueError :=
  ⟨⟨rfl, rfl, rfl⟩, load_no_valid_lines_fails _ rfl rfl rfl⟩

/-- Claim C9: for every mapping item, path, format, indent and prior file
state, the dedicated append entry point behaves identically to calling
the saver with append set to true and the same arguments: same resulting
file content and same error conditions. -/
theorem jsave_append_eq_jsave_with_append (item : JValue) (path : String)
    (fmt : Option Fmt) (indent : Nat) (file : Option Content) :
    jsave_append item path fmt indent file =
      jsave item path fmt indent true file :=
  rfl

/-- Claim C10: there is an input — a bare scalar such as a string — that
the saver in json format accepts and writes as-is, yet loading the
resulting file fails with a ValueError: the save/load pair is not a
round-trip for scalar inputs. -/
theorem scalar_save_load_not_roundtrip :
    jsave (JValue.jstr "Hello, world!") "output.json" (some Fmt.json) 2
        false none =
      Except.ok (Content.ofJsonDoc (JValue.jstr "Hello, world!")) ∧
    jload (some (Content.ofJsonDoc (JValue.jstr "Hello, world!"))) =
      Except.error JErr.valueError :=
  ⟨rfl, rfl⟩
